import Mathlib

/-!
Verification of the inter-bot dialogue turn-taking coordinator
(`BotDialogueManager` in `backend/core/bot_dialogue.py`).

The Python module keeps two module-level dictionaries:
`bot_configs : bot_token -> {model, name, system_prompt}` and
`dialogue_state : chat_id -> {last_speaker, last_message_time,
conversation_history}`.  We embed both as insertion-ordered association
lists with Python-dict semantics (update in place, insert at the end).
Timestamps (`datetime` values compared via `total_seconds()`) are embedded
as integer seconds; for integer-second datetimes the float arithmetic of
the source is exact, and the constant `0.8 * 180` is exactly the float
`144.0`, so integer comparisons are faithful.  Python string operations
(`lower`, `strip`, `split`, `join`, truthiness of `None`/empty strings)
are embedded by the `py*` helpers below over the ASCII and Cyrillic
characters that actually occur in the source.
-/

namespace LiraBot

/-- Python `str.lower()` on the ASCII and Cyrillic (А-Я, Ё) ranges, the
only cased characters occurring in the source constants. -/
def pyLowerChar (c : Char) : Char :=
  if 'A' ≤ c ∧ c ≤ 'Z' then Char.ofNat (c.toNat + 32)
  else if 'А' ≤ c ∧ c ≤ 'Я' then Char.ofNat (c.toNat + 32)
  else if c = 'Ё' then 'ё'
  else c

/-- Python `str.lower()` (characterwise). -/
def pyLower (s : String) : String := String.mk (s.data.map pyLowerChar)

/-- Python `str.strip()`: drop leading and trailing whitespace. -/
def pyStrip (s : String) : String :=
  String.mk (((s.data.dropWhile Char.isWhitespace).reverse.dropWhile Char.isWhitespace).reverse)

/-- Helper for `pySplit`: accumulates the current word (reversed). -/
def pySplitAux : List Char → List Char → List String
  | [], acc => if acc.isEmpty then [] else [String.mk acc.reverse]
  | c :: cs, acc =>
    if Char.isWhitespace c then
      if acc.isEmpty then pySplitAux cs []
      else String.mk acc.reverse :: pySplitAux cs []
    else pySplitAux cs (c :: acc)

/-- Python `str.split()` (no argument): split on whitespace runs,
discarding empty pieces. -/
def pySplit (s : String) : List String := pySplitAux s.data []

/-- Python `sep.join(xs)`. -/
def pyJoin (sep : String) : List String → String
  | [] => ""
  | [x] => x
  | x :: y :: xs => x ++ sep ++ pyJoin sep (y :: xs)

/-- Python `needle in hay` on lists of characters. -/
def listContainsSub (needle : List Char) : List Char → Bool
  | [] => needle.isEmpty
  | c :: cs => needle.isPrefixOf (c :: cs) || listContainsSub needle cs

/-- Python substring test `needle in hay`. -/
def strContains (hay needle : String) : Bool := listContainsSub needle.data hay.data

/-- Python truthiness of an `Optional[str]`: `None` and `""` are falsy. -/
def pyTruthyStr : Option String → Bool
  | none => false
  | some s => !(s == "")

/-- One registered bot: the `{model, name, system_prompt}` dict stored in
`bot_configs`. -/
structure BotConfig where
  model : String
  name : String
  system_prompt : String
deriving DecidableEq

/-- One entry of `conversation_history`: `{speaker, text, time}` where
`time` is stored as `current_time.isoformat()` and parsed back with
`datetime.fromisoformat`; the round trip is the identity, so we store the
timestamp directly. -/
structure HistoryEntry where
  speaker : String
  text : String
  time : Int
deriving DecidableEq

/-- The per-chat dict `{last_speaker, last_message_time,
conversation_history}` held in the module-level `dialogue_state`. -/
structure ChatState where
  last_speaker : Option String
  last_message_time : Option Int
  conversation_history : List HistoryEntry
deriving DecidableEq

abbrev BotConfigs := List (String × BotConfig)
abbrev StateMap := List (String × ChatState)

/-- Python dict lookup `d.get(k)` / `k in d` on an insertion-ordered
association list. -/
def dictGet {α : Type} (d : List (String × α)) (k : String) : Option α :=
  match d with
  | [] => none
  | (k', v) :: rest => if k' = k then some v else dictGet rest k

/-- Python dict assignment `d[k] = v`: update in place if the key exists,
otherwise append at the end (insertion order). -/
def dictSet {α : Type} (d : List (String × α)) (k : String) (v : α) : List (String × α) :=
  match d with
  | [] => [(k, v)]
  | (k', v') :: rest => if k' = k then (k, v) :: rest else (k', v') :: dictSet rest k v

/-- `self.message_timeout = 180` (seconds). -/
def message_timeout : Int := 180

/-- `self.max_history = 15`. -/
def max_history : Nat := 15

/-- `self.third_bot_timeout = 180` (seconds). -/
def third_bot_timeout : Int := 180

/-- The fresh per-chat state created by the source:
`{"last_speaker": None, "last_message_time": None, "conversation_history": []}`. -/
def emptyChatState : ChatState := ⟨none, none, []⟩

/-- `BotDialogueManager.register_bot`. -/
def register_bot (configs : BotConfigs) (bot_token model bot_name system_prompt : String) :
    BotConfigs :=
  dictSet configs bot_token ⟨model, bot_name, system_prompt⟩

/-- `BotDialogueManager.should_respond`.  Returns the boolean result and
the module-level `dialogue_state` after the call (the source initialises
the chat state when it is absent).  `current_bot_token` has Python
default `None`, hence `Option String`. -/
def should_respond (ds : StateMap) (chat_id : String) (message_text : String)
    (sender_token : String) (current_time : Int) (current_bot_token : Option String) :
    Bool × StateMap :=
  match dictGet ds chat_id with
  | none =>
      -- chat_id not in dialogue_state: create fresh state, return True
      (true, dictSet ds chat_id emptyChatState)
  | some state =>
      if state.last_speaker = current_bot_token then
        (false, ds)
      else if state.last_speaker = some sender_token then
        (match state.last_message_time with
         | some t => if current_time - t < message_timeout then (false, ds) else (true, ds)
         | none => (true, ds))
      else if pyTruthyStr state.last_speaker && !(state.last_speaker == current_bot_token) then
        (match state.last_message_time with
         | some t =>
             -- `time_diff < self.message_timeout * 0.8`; 180 * 0.8 is exactly
             -- the float 144.0, so the comparison is the exact rational one
             if (current_time - t) * 10 < message_timeout * 8 then (false, ds)
             else (true, ds)
         | none => (true, ds))
      else
        (true, ds)

/-- `BotDialogueManager.update_dialogue_state` (the spec's `recordTurn`). -/
def update_dialogue_state (configs : BotConfigs) (ds : StateMap) (chat_id : String)
    (bot_token : String) (message_text : String) (current_time : Int) : StateMap :=
  let state :=
    match dictGet ds chat_id with
    | none => emptyChatState
    | some s => s
  let bot_name :=
    match dictGet configs bot_token with
    | some cfg => cfg.name
    | none => "Бот"
  let history := state.conversation_history ++ [⟨bot_name, message_text, current_time⟩]
  let history :=
    if history.length > max_history then history.drop (history.length - max_history)
    else history
  dictSet ds chat_id ⟨some bot_token, some current_time, history⟩

/-- The `conversation_history` the source would read for `chat_id`
(`[]` when the chat has no state). -/
def historyOf (ds : StateMap) (chat_id : String) : List HistoryEntry :=
  match dictGet ds chat_id with
  | none => []
  | some s => s.conversation_history

/-- The `"{speaker}: {text}"` transcript line of
`build_conversation_context`. -/
def renderLine (msg : HistoryEntry) : String := msg.speaker ++ ": " ++ msg.text

/-- The fixed anti-repetition instruction block prepended by
`build_conversation_context` when more than 3 entries are rendered. -/
def instructionLines : List String :=
  ["ВНИМАНИЕ: Проанализируй историю диалога выше. Твой ответ должен:",
   "- Развивать тему, а не повторять предыдущие мысли",
   "- Добавлять новую информацию или задавать новые вопросы",
   "- Избегать простых приветствий, если они уже были",
   "",
   "История диалога:"]

/-- `history[-10:] if len(history) > 10 else history`. -/
def recentWindow (history : List HistoryEntry) : List HistoryEntry :=
  if history.length > 10 then history.drop (history.length - 10) else history

/-- `BotDialogueManager.build_conversation_context` (the spec's
`buildContext`).  The `other_bot_name` parameter is accepted but unused,
exactly as in the source. -/
def build_conversation_context (ds : StateMap) (chat_id : String)
    (other_bot_name : String) : String :=
  match dictGet ds chat_id with
  | none => ""
  | some state =>
    let history := state.conversation_history
    if history.isEmpty then ""
    else
      let recent := recentWindow history
      let intro := if recent.length > 3 then instructionLines else []
      pyJoin "\n" (intro ++ recent.map renderLine)

/-- `[msg.text.lower().strip() for msg in history[-4:]]`. -/
def normalizedRecent (history : List HistoryEntry) : List String :=
  (history.drop (history.length - 4)).map (fun msg => pyStrip (pyLower msg.text))

/-- `BotDialogueManager.detect_looping` (the spec's `detectLooping`).
The source accepts an unused `min_similarity` float parameter which we
omit since no computation depends on it. -/
def detect_looping (ds : StateMap) (chat_id : String) : Bool :=
  match dictGet ds chat_id with
  | none => false
  | some state =>
    let history := state.conversation_history
    if history.length < 3 then false
    else
      let recent_messages := normalizedRecent history
      if recent_messages.dedup.length < 2 then true
      else if recent_messages.length ≥ 2 then
        let first_words :=
          (recent_messages.filter (fun msg => !(pySplit msg).isEmpty)).map
            (fun msg => (pySplit msg).take 3)
        if (first_words.map (fun words => pyJoin " " words)).dedup.length < 2 then true
        else false
      else false

/-- `BotDialogueManager.get_third_bot_token`: first registered bot whose
model contains "perplexity" (lowercased) or whose name lowercases to
"перплексити". -/
def get_third_bot_token (configs : BotConfigs) : Option String :=
  match configs with
  | [] => none
  | (token, config) :: rest =>
    if strContains (pyLower config.model) "perplexity" ||
        pyLower config.name == "перплексити" then some token
    else get_third_bot_token rest

/-- The reversed-scan in `should_third_bot_intervene`: the time of the
last history entry whose speaker lowercases to "перплексити".  The
stored time is `current_time.isoformat()`, which
`datetime.fromisoformat` parses back exactly, so the parse never fails
on states produced by `update_dialogue_state`. -/
def find_last_third_bot_time (history : List HistoryEntry) : Option Int :=
  match history.reverse.find? (fun msg => pyLower msg.speaker == "перплексити") with
  | some msg => some msg.time
  | none => none

/-- `BotDialogueManager.should_third_bot_intervene` (the spec's
`shouldAuxiliaryIntervene`).  `min_messages_before` has Python default 2. -/
def should_third_bot_intervene (configs : BotConfigs) (ds : StateMap)
    (chat_id : String) (current_time : Int) (min_messages_before : Nat) : Bool :=
  match get_third_bot_token configs with
  | none => false
  | some tok =>
    -- `if not third_bot_token`: empty-string tokens are falsy too
    if tok = "" then false
    else
      match dictGet ds chat_id with
      | none => false
      | some state =>
        let history := state.conversation_history
        if history.length < min_messages_before then false
        else
          let cooldown : Bool :=
            match find_last_third_bot_time history with
            | some t => decide (current_time - t < third_bot_timeout)
            | none => false
          if cooldown then false
          else if detect_looping ds chat_id then true
          else if history.length ≥ 3 &&
              (history.drop (history.length - 3)).all (fun msg => msg.text.length < 50) then
            true
          else false

/-- Replay a list of `(bot_token, message_text, current_time)` turns on
one chat through `update_dialogue_state`. -/
def record_turns (configs : BotConfigs) (ds : StateMap) (chat_id : String)
    (turns : List (String × String × Int)) : StateMap :=
  turns.foldl
    (fun acc turn => update_dialogue_state configs acc chat_id turn.1 turn.2.1 turn.2.2) ds

/-- The history entry a `(bot_token, message_text, current_time)` turn
appends: speaker is the registered display name, defaulting to "Бот". -/
def entryOf (configs : BotConfigs) (turn : String × String × Int) : HistoryEntry :=
  ⟨(match dictGet configs turn.1 with
    | some cfg => cfg.name
    | none => "Бот"), turn.2.1, turn.2.2⟩

/-- Formalisation of claim C7 as worded: looping iff fewer than 2
distinct normalized messages, or fewer than 2 distinct 3-word prefixes
taken over each of the last-4 normalized messages. -/
def loopingPerClaim (ds : StateMap) (chat_id : String) : Bool :=
  if (historyOf ds chat_id).length < 3 then false
  else
    let recent := normalizedRecent (historyOf ds chat_id)
    decide (recent.dedup.length < 2) ||
      decide ((recent.map (fun msg => pyJoin " " ((pySplit msg).take 3))).dedup.length < 2)

/-- Amended claim C7: the 3-word-prefix set ranges only over the
normalized messages that contain at least one word. -/
def loopingAmended (ds : StateMap) (chat_id : String) : Bool :=
  if (historyOf ds chat_id).length < 3 then false
  else
    let recent := normalizedRecent (historyOf ds chat_id)
    decide (recent.dedup.length < 2) ||
      decide (((recent.filter (fun msg => !(pySplit msg).isEmpty)).map
        (fun msg => pyJoin " " ((pySplit msg).take 3))).dedup.length < 2)

/-- Claim C8 auxiliary label: the registered display name of the
auxiliary (web-search) participant. -/
def auxDisplayName (configs : BotConfigs) : Option String :=
  match get_third_bot_token configs with
  | none => none
  | some tok =>
    match dictGet configs tok with
    | some cfg => some cfg.name
    | none => none

/-- Claim C8 as worded: the time of the most recent history entry whose
speaker equals `name` under case-sensitive comparison. -/
def lastSpeakerTimeExact (history : List HistoryEntry) (name : String) : Option Int :=
  match history.reverse.find? (fun msg => msg.speaker == name) with
  | some msg => some msg.time
  | none => none

/-- Concrete state for settling claim C5: a turn recorded with the
empty-string identity token, followed by a query from a third sender. -/
def dsEmptyTok : StateMap := update_dialogue_state [] [] "c1" "" "hi" 0

/-- Concrete state for settling claim C7: one whitespace-only message
followed by two messages with the identical word content. -/
def dsLoop : StateMap :=
  [("c", ⟨some "A", some 2, [⟨"A", " ", 0⟩, ⟨"A", "hi x", 1⟩, ⟨"A", "hi x", 2⟩]⟩)]

/-- Registry for settling claim C8: the auxiliary bot is recognised by
its model string and carries the display name "Bob". -/
def configsAux : BotConfigs := [("T3", ⟨"perplexity", "Bob", "p"⟩)]

/-- Chat state for settling claim C8: three identical looping messages,
all spoken by "Bob", the last one 1 second before the query time 180. -/
def dsAux : StateMap :=
  [("c", ⟨some "T3", some 179,
    [⟨"Bob", "hi hi hi", 0⟩, ⟨"Bob", "hi hi hi", 1⟩, ⟨"Bob", "hi hi hi", 179⟩]⟩)]

/-- Registry witnessing the amended claim C8: the auxiliary bot with the
canonical display name. -/
def configsAuxNamed : BotConfigs := [("T3", ⟨"perplexity", "Перплексити", "p"⟩)]

/-- Chat state witnessing the amended claim C8: the auxiliary spoke 5
seconds before the query time 10. -/
def dsAuxNamed : StateMap :=
  [("c", ⟨some "T3", some 5,
    [⟨"перплексити", "a a a", 0⟩, ⟨"перплексити", "a a a", 5⟩, ⟨"перплексити", "a a a", 5⟩]⟩)]

/-- Chat state with 4 recorded turns, used to witness claim C9. -/
def dsFour : StateMap :=
  [("c", ⟨some "B", some 3,
    [⟨"A", "one", 0⟩, ⟨"B", "two", 1⟩, ⟨"A", "three", 2⟩, ⟨"B", "four", 3⟩]⟩)]

/-- Chat state with 2 recorded turns, used to witness claim C9. -/
def dsTwo : StateMap :=
  [("c", ⟨some "B", some 1, [⟨"A", "one", 0⟩, ⟨"B", "two", 1⟩]⟩)]

/-! ### Shared lemmas -/

theorem dictGet_dictSet_self {α : Type} (d : List (String × α)) (k : String) (v : α) :
    dictGet (dictSet d k v) k = some v := by
  induction d with
  | nil => simp [dictGet, dictSet]
  | cons p rest ih =>
    by_cases h : p.1 = k
    · simp [dictGet, dictSet, h]
    · simp [dictGet, dictSet, h, ih]

theorem update_sets_speaker (configs : BotConfigs) (ds : StateMap) (chat_id : String)
    (tok txt : String) (tm : Int) :
    ∃ hist, dictGet (update_dialogue_state configs ds chat_id tok txt tm) chat_id =
      some ⟨some tok, some tm, hist⟩ := by
  unfold update_dialogue_state
  exact ⟨_, dictGet_dictSet_self ds chat_id _⟩

theorem historyOf_update (configs : BotConfigs) (ds : StateMap) (chat_id : String)
    (tok txt : String) (tm : Int) :
    historyOf (update_dialogue_state configs ds chat_id tok txt tm) chat_id =
      (let h1 := historyOf ds chat_id ++ [entryOf configs (tok, txt, tm)]
       if h1.length > max_history then h1.drop (h1.length - max_history) else h1) := by
  unfold update_dialogue_state historyOf entryOf
  cases hd : dictGet ds chat_id <;>
    simp [dictGet_dictSet_self, hd, emptyChatState]

theorem historyOf_record_turns (configs : BotConfigs) (chat_id : String)
    (turns : List (String × String × Int)) :
    historyOf (record_turns configs [] chat_id turns) chat_id =
      (turns.map (entryOf configs)).drop (turns.length - max_history) := by
  induction turns using List.reverseRecOn with
  | nil => simp [record_turns, historyOf, dictGet]
  | append_singleton ts t ih =>
    have hstep : record_turns configs [] chat_id (ts ++ [t]) =
        update_dialogue_state configs (record_turns configs [] chat_id ts) chat_id
          t.1 t.2.1 t.2.2 := by
      simp [record_turns, List.foldl_append]
    rw [hstep, historyOf_update, ih]
    have hlen : ((ts.map (entryOf configs)).drop (ts.length - max_history)).length =
        ts.length - (ts.length - max_history) := by
      simp
    by_cases hsmall : ts.length < max_history
    · have h0 : ts.length - max_history = 0 := by omega
      have h0' : (ts ++ [t]).length - max_history = 0 := by
        simp; omega
      simp only [h0, h0', List.drop_zero, List.map_append, List.length_append,
        List.length_map, List.map_cons, List.map_nil]
      have : ¬ ((ts.map (entryOf configs)).length + 1 > max_history) := by
        simp; omega
      simp [this]
      intro
      rw [show ts.length + 1 - max_history = 0 by omega, List.drop_zero]
    · -- at least max_history entries already: one element is dropped from the front
      push_neg at hsmall
      have hlen15 : ((ts.map (entryOf configs)).drop (ts.length - max_history)).length =
          max_history := by rw [hlen]; omega
      have hgt : ((ts.map (entryOf configs)).drop (ts.length - max_history) ++
          [entryOf configs t]).length > max_history := by
        simp [hlen15]
      simp only [List.map_append, List.map_cons, List.map_nil]
      rw [if_pos (by simpa using hgt)]
      have hdlen : ((ts.map (entryOf configs)).drop (ts.length - max_history) ++
          [entryOf configs t]).length - max_history = 1 := by
        simp [hlen15]
      rw [hdlen]
      have h1le : 1 ≤ ((ts.map (entryOf configs)).drop (ts.length - max_history)).length := by
        rw [hlen15]; norm_num [max_history]
      rw [List.drop_append_of_le_length h1le, List.drop_drop]
      have harith : ts.length - max_history + 1 = (ts ++ [t]).length - max_history := by
        simp; omega
      rw [harith]
      have hle : (ts ++ [t]).length - max_history ≤ (ts.map (entryOf configs)).length := by
        simp; omega
      rw [List.drop_append_of_le_length (by simpa using hle)]

/-! ### Claim theorems -/

/-- C1: for every chat with no per-chat dialogue state yet,
`should_respond` returns true, whatever the message text, sender,
time and candidate are. -/
theorem C1_fresh_chat_always_true (ds : StateMap) (chat_id message_text sender_token : String)
    (current_time : Int) (current_bot_token : Option String)
    (h : dictGet ds chat_id = none) :
    (should_respond ds chat_id message_text sender_token current_time current_bot_token).1 =
      true := by
  simp [should_respond, h]

theorem C1_witness :
    dictGet ([] : StateMap) "c1" = none ∧
      (should_respond [] "c1" "hi" "A" 0 (some "B")).1 = true :=
  ⟨rfl, C1_fresh_chat_always_true [] "c1" "hi" "A" 0 (some "B") rfl⟩

/-- C2 counterexample: a single `should_respond` call on a chat with no
prior state creates a fresh state entry for that chat, so the state map
after the call differs from the state map before it, contradicting the
claim that `should_respond` never creates or modifies per-chat state. -/
theorem C2_counterexample :
    (should_respond [] "c1" "hi" "A" 0 (some "B")).2 = [("c1", emptyChatState)] ∧
      [("c1", emptyChatState)] ≠ ([] : StateMap) := by
  exact ⟨rfl, by simp⟩

/-- C2 amended: `should_respond` creates a fresh empty state (absent
last speaker and time, empty history) for a chat with no prior state,
and leaves the state map unchanged when the chat already has state;
non-empty state is still only produced by `update_dialogue_state`. -/
theorem C2_state_effect (ds : StateMap) (chat_id message_text sender_token : String)
    (current_time : Int) (current_bot_token : Option String) :
    (should_respond ds chat_id message_text sender_token current_time current_bot_token).2 =
      (match dictGet ds chat_id with
       | none => dictSet ds chat_id emptyChatState
       | some _ => ds) := by
  unfold should_respond
  cases h : dictGet ds chat_id with
  | none => rfl
  | some state =>
    simp only
    split
    · rfl
    · split
      · split <;> try rfl
        all_goals split <;> rfl
      · split
        · split <;> try rfl
          all_goals split <;> rfl
        · rfl

/-- C3: after any `update_dialogue_state` call with speaker `S`,
`should_respond` with candidate `S` on that chat returns false,
regardless of the message text, sender and time. -/
theorem C3_no_self_reply (configs : BotConfigs) (ds : StateMap)
    (chat_id S text : String) (t0 : Int) (message_text sender_token : String)
    (now : Int) :
    (should_respond (update_dialogue_state configs ds chat_id S text t0)
      chat_id message_text sender_token now (some S)).1 = false := by
  obtain ⟨hist, hstate⟩ := update_sets_speaker configs ds chat_id S text t0
  simp [should_respond, hstate]

/-- C4: after the last turn was recorded for speaker `A` at time `t0`,
a candidate `B ≠ A` asked about a message from sender `A` may respond
iff at least `message_timeout = 180` seconds elapsed; in particular the
answer is false exactly when `now - t0 < 180`. -/
theorem C4_same_sender_timeout (configs : BotConfigs) (ds : StateMap)
    (chat_id A text : String) (t0 : Int) (B message_text : String) (now : Int)
    (hAB : A ≠ B) :
    ((should_respond (update_dialogue_state configs ds chat_id A text t0)
        chat_id message_text A now (some B)).1 = false ↔ now - t0 < 180) := by
  obtain ⟨hist, hstate⟩ := update_sets_speaker configs ds chat_id A text t0
  have hne : ¬ ((some A : Option String) = some B) := by simp [hAB]
  by_cases hc : now - t0 < message_timeout
  · simp only [should_respond, hstate]
    rw [if_neg hne, if_pos trivial, if_pos hc]
    simp only [message_timeout] at hc
    simp
    omega
  · simp only [should_respond, hstate]
    rw [if_neg hne, if_pos trivial, if_neg hc]
    simp only [message_timeout] at hc
    simp
    omega

theorem C4_witness :
    ("A" : String) ≠ "B" ∧
      (((should_respond (update_dialogue_state [] [] "c" "A" "hi" 0)
          "c" "x" "A" 10 (some "B")).1 = false) ↔ ((10 : Int) - 0 < 180)) ∧
      (((should_respond (update_dialogue_state [] [] "c" "A" "hi" 0)
          "c" "x" "A" 181 (some "B")).1 = false) ↔ ((181 : Int) - 0 < 180)) :=
  ⟨by decide,
   C4_same_sender_timeout [] [] "c" "A" "hi" 0 "B" "x" 10 (by decide),
   C4_same_sender_timeout [] [] "c" "A" "hi" 0 "B" "x" 181 (by decide)⟩

/-- C5 counterexample: a turn recorded with the empty-string identity
token yields an existing state whose `last_speaker` ("") is neither the
candidate "B" nor the sender "A", with only 10 < 144 seconds elapsed,
yet `should_respond` returns true: the Python truthiness test
`if state["last_speaker"]` skips the 80%-timeout branch for the empty
identity, so the claim fails as stated. -/
theorem C5_counterexample :
    dictGet dsEmptyTok "c1" = some ⟨some "", some 0, [⟨"Бот", "hi", 0⟩]⟩ ∧
      (some "" : Option String) ≠ some "B" ∧ ("" : String) ≠ "A" ∧
      ¬(((should_respond dsEmptyTok "c1" "x" "A" 10 (some "B")).1 = false) ↔
        ((10 : Int) - 0 < 144)) := by
  refine ⟨rfl, by simp, by simp, fun hiff => absurd (hiff.mpr (by decide)) (by decide)⟩

/-- C5 amended: for every chat with existing state whose `last_speaker`
is a non-empty identity distinct from both the candidate and the sender,
and with a recorded last-message time `t`, `should_respond` returns
false iff `now - t < 144` (80% of the 180-second timeout), and true
otherwise. -/
theorem C5_third_party_timeout (ds : StateMap) (chat_id : String) (state : ChatState)
    (s : String) (t : Int) (message_text sender_token : String) (now : Int)
    (cand : Option String)
    (h1 : dictGet ds chat_id = some state) (h2 : state.last_speaker = some s)
    (h3 : s ≠ "") (h4 : some s ≠ cand) (h5 : s ≠ sender_token)
    (h6 : state.last_message_time = some t) :
    ((should_respond ds chat_id message_text sender_token now cand).1 = false ↔
      now - t < 144) := by
  have hc1 : ¬ ((some s : Option String) = cand) := h4
  have hc2 : ¬ ((some s : Option String) = some sender_token) := by simp [h5]
  have htr : (pyTruthyStr (some s) && !((some s : Option String) == cand)) = true := by
    simp [pyTruthyStr, h3, hc1]
  by_cases hc : (now - t) * 10 < message_timeout * 8
  · simp only [should_respond, h1, h2, h6]
    rw [if_neg hc1, if_neg hc2, if_pos htr, if_pos hc]
    simp only [message_timeout] at hc
    simp
    omega
  · simp only [should_respond, h1, h2, h6]
    rw [if_neg hc1, if_neg hc2, if_pos htr, if_neg hc]
    simp only [message_timeout] at hc
    simp
    omega

theorem C5_witness :
    dictGet [("c", (⟨some "S", some 0, []⟩ : ChatState))] "c" =
        some ⟨some "S", some 0, []⟩ ∧
      (((should_respond [("c", (⟨some "S", some 0, []⟩ : ChatState))]
          "c" "x" "A" 10 (some "B")).1 = false) ↔ ((10 : Int) - 0 < 144)) :=
  ⟨rfl,
   C5_third_party_timeout [("c", ⟨some "S", some 0, []⟩)] "c" ⟨some "S", some 0, []⟩
     "S" 0 "x" "A" 10 (some "B") rfl rfl (by decide) (by decide) (by decide) rfl⟩

/-- C6: replaying any sequence of `update_dialogue_state` calls on one
chat never leaves more than 15 history entries; a sequence of 20 calls
leaves exactly the most recent 15 recorded messages, in insertion
order. -/
theorem C6_history_bound (configs : BotConfigs) (chat_id : String)
    (turns : List (String × String × Int)) :
    (historyOf (record_turns configs [] chat_id turns) chat_id).length ≤ 15 ∧
      (turns.length = 20 →
        historyOf (record_turns configs [] chat_id turns) chat_id =
          (turns.map (entryOf configs)).drop 5 ∧
        (historyOf (record_turns configs [] chat_id turns) chat_id).length = 15) := by
  have h := historyOf_record_turns configs chat_id turns
  refine ⟨?_, fun h20 => ⟨?_, ?_⟩⟩
  · rw [h]
    simp only [List.length_drop, List.length_map, max_history]
    omega
  · rw [h, h20]
    norm_num [max_history]
  · rw [h, List.length_drop, List.length_map, h20]
    norm_num [max_history]

theorem C6_witness :
    (historyOf (record_turns [] []
        "c" (List.replicate 20 ("A", "m", (0 : Int)))) "c").length ≤ 15 ∧
      (historyOf (record_turns [] [] "c" (List.replicate 20 ("A", "m", (0 : Int)))) "c" =
        ((List.replicate 20 ("A", "m", (0 : Int))).map (entryOf [])).drop 5 ∧
       (historyOf (record_turns [] []
          "c" (List.replicate 20 ("A", "m", (0 : Int)))) "c").length = 15) :=
  ⟨(C6_history_bound [] "c" (List.replicate 20 ("A", "m", (0 : Int)))).1,
   (C6_history_bound [] "c" (List.replicate 20 ("A", "m", (0 : Int)))).2 (by decide)⟩

/-- C7 counterexample: on a history whose last messages normalise to
" " (whitespace only), "hi x", "hi x", the source reports looping (its
3-word-prefix set skips messages without words, leaving the single
prefix "hi x"), while the claim's prefix set taken over each of those
messages contains both "" and "hi x" and therefore reports no looping. -/
theorem C7_counterexample :
    detect_looping dsLoop "c" = true ∧ loopingPerClaim dsLoop "c" = false := by
  exact ⟨by decide, by decide⟩

/-- C7 amended: `detect_looping` returns false for fewer than 3 history
entries, and otherwise returns true iff the last 4 normalized messages
have fewer than 2 distinct values, or the 3-word prefixes of those of
them containing at least one word have fewer than 2 distinct values. -/
theorem C7_looping_characterisation (ds : StateMap) (chat_id : String) :
    detect_looping ds chat_id = loopingAmended ds chat_id := by
  unfold detect_looping loopingAmended
  cases h : dictGet ds chat_id with
  | none => simp [historyOf, h]
  | some state =>
    simp only [historyOf, h]
    by_cases hlen : state.conversation_history.length < 3
    · simp [hlen]
    · simp only [if_neg hlen]
      have hrec : 2 ≤ (normalizedRecent state.conversation_history).length := by
        simp [normalizedRecent]
        omega
      by_cases hA : (normalizedRecent state.conversation_history).dedup.length < 2
      · simp [hA]
      · by_cases hB : (((normalizedRecent state.conversation_history).filter
            (fun msg => !(pySplit msg).isEmpty)).map
              (fun msg => pyJoin " " ((pySplit msg).take 3))).dedup.length < 2 <;>
          simp [hA, hB, hrec, List.map_map, Function.comp_def]

/-- C8 counterexample: with the auxiliary bot registered under the
display name "Bob" (recognised through its "perplexity" model string)
and a looping history whose most recent "Bob" entry lies 1 < 180
seconds before the query, `should_third_bot_intervene` returns true:
the cooldown scan compares lowercased speakers against the hardcoded
label "перплексити", not against the registered display name. -/
theorem C8_counterexample :
    auxDisplayName configsAux = some "Bob" ∧
      lastSpeakerTimeExact (historyOf dsAux "c") "Bob" = some 179 ∧
      ((180 : Int) - 179 < 180) ∧
      should_third_bot_intervene configsAux dsAux "c" 180 2 = true := by
  refine ⟨by decide, by decide, by decide, by decide⟩

/-- C8 amended: whenever the most recent history entry whose speaker
display name lowercases to the fixed label "перплексити" lies less than
180 seconds before `now`, `should_third_bot_intervene` returns false,
even when looping is detected. -/
theorem C8_aux_cooldown (configs : BotConfigs) (ds : StateMap) (chat_id : String)
    (now : Int) (mmb : Nat) (t : Int)
    (h1 : find_last_third_bot_time (historyOf ds chat_id) = some t)
    (h2 : now - t < third_bot_timeout) :
    should_third_bot_intervene configs ds chat_id now mmb = false := by
  unfold should_third_bot_intervene
  cases hg : get_third_bot_token configs with
  | none => rfl
  | some tok =>
    simp only
    by_cases htok : tok = ""
    · simp [htok]
    · rw [if_neg htok]
      cases hd : dictGet ds chat_id with
      | none => rfl
      | some state =>
        have hh : historyOf ds chat_id = state.conversation_history := by
          simp [historyOf, hd]
        rw [hh] at h1
        by_cases hl : state.conversation_history.length < mmb
        · simp [hl]
        · simp [hl, h1, h2]

theorem C8_witness :
    find_last_third_bot_time (historyOf dsAuxNamed "c") = some 5 ∧
      ((10 : Int) - 5 < third_bot_timeout) ∧
      should_third_bot_intervene configsAuxNamed dsAuxNamed "c" 10 2 = false :=
  ⟨by decide, by decide,
   C8_aux_cooldown configsAuxNamed dsAuxNamed "c" 10 2 5 (by decide) (by decide)⟩

theorem pyJoin_cons_cons_ne_empty (a b : String) (l : List String) :
    pyJoin "\n" (a :: b :: l) ≠ "" := by
  intro hcontra
  have hl := congrArg String.length hcontra
  rw [show pyJoin "\n" (a :: b :: l) = a ++ "\n" ++ pyJoin "\n" (b :: l) from rfl] at hl
  rw [String.length_append, String.length_append] at hl
  have h1 : ("\n" : String).length = 1 := rfl
  have h0 : ("" : String).length = 0 := rfl
  omega

/-- C9: `build_conversation_context` returns "" for a chat with no
recorded history; with 1 to 3 recorded entries it returns exactly the
newline-joined "speaker: text" lines in chronological order; and when
the rendered window (the most recent 10 entries) holds more than 3
entries it returns those lines preceded by the fixed anti-repetition
instruction block, a non-empty instruction-prefixed string. -/
theorem C9_build_context (ds : StateMap) (chat_id other_name : String) :
    (historyOf ds chat_id = [] →
      build_conversation_context ds chat_id other_name = "") ∧
      (1 ≤ (historyOf ds chat_id).length → (historyOf ds chat_id).length ≤ 3 →
        build_conversation_context ds chat_id other_name =
          pyJoin "\n" ((historyOf ds chat_id).map renderLine)) ∧
      (3 < (recentWindow (historyOf ds chat_id)).length →
        build_conversation_context ds chat_id other_name =
          pyJoin "\n" (instructionLines ++
            (recentWindow (historyOf ds chat_id)).map renderLine) ∧
        build_conversation_context ds chat_id other_name ≠ "") := by
  refine ⟨?_, ?_, ?_⟩
  · intro h0
    unfold build_conversation_context
    cases hd : dictGet ds chat_id with
    | none => rfl
    | some state =>
      have h0' : state.conversation_history = [] := by simpa [historyOf, hd] using h0
      simp [h0']
  · intro hge hle
    cases hd : dictGet ds chat_id with
    | none => simp [historyOf, hd] at hge
    | some state =>
      have hh : historyOf ds chat_id = state.conversation_history := by
        simp [historyOf, hd]
      rw [hh] at hge hle ⊢
      have hwin : recentWindow state.conversation_history = state.conversation_history := by
        unfold recentWindow
        rw [if_neg (by omega)]
      have hintro : ¬ (3 < state.conversation_history.length) := by omega
      have hne : state.conversation_history.isEmpty = false := by
        cases hcl : state.conversation_history with
        | nil => rw [hcl] at hge; simp at hge
        | cons a l => rfl
      simp [build_conversation_context, hd, hne, hintro, hwin]
  · intro hgt
    cases hd : dictGet ds chat_id with
    | none => simp [historyOf, hd, recentWindow] at hgt
    | some state =>
      have hh : historyOf ds chat_id = state.conversation_history := by
        simp [historyOf, hd]
      rw [hh] at hgt ⊢
      have hne : state.conversation_history.isEmpty = false := by
        cases hcl : state.conversation_history with
        | nil => rw [hcl] at hgt; simp [recentWindow] at hgt
        | cons a l => rfl
      constructor
      · simp [build_conversation_context, hd, hne, hgt]
      · simp only [build_conversation_context, hd, hne, if_pos hgt]
        exact pyJoin_cons_cons_ne_empty _ _ _

theorem C9_witness :
    (build_conversation_context dsFour "c" "X" =
        pyJoin "\n" (instructionLines ++
          (recentWindow (historyOf dsFour "c")).map renderLine) ∧
      build_conversation_context dsFour "c" "X" ≠ "") ∧
      build_conversation_context dsTwo "c" "X" =
        pyJoin "\n" ((historyOf dsTwo "c").map renderLine) ∧
      build_conversation_context [] "c" "X" = "" :=
  ⟨(C9_build_context dsFour "c" "X").2.2 (by decide),
   (C9_build_context dsTwo "c" "X").2.1 (by decide) (by decide),
   (C9_build_context [] "c" "X").1 rfl⟩

/-- C10: the result of `build_conversation_context` does not depend on
the `other_bot_name` argument: the parameter is accepted but never
read. -/
theorem C10_context_ignores_other_name (ds : StateMap) (chat_id n1 n2 : String) :
    build_conversation_context ds chat_id n1 = build_conversation_context ds chat_id n2 :=
  rfl

end LiraBot
